import Mathlib

/-!
Shallow embedding of the s_graphs semantic mapping code (plane utilities,
corridor/room sorting and refinement, plane association, auxiliary queue
flushing, covariance recomputation, the optimization timer tick, and
landmark id assignment), with theorems settling the specification claims.

Floating point doubles are modelled by exact rationals; the claims under
study are about control flow, comparisons and exact arithmetic identities,
none of which depend on rounding.
-/

/- The batteries library marks rational arithmetic irreducible, which
blocks elaborator-side evaluation of concrete instances of the embedded
functions; restore the default reducibility so that decide can evaluate
them (kernel-checked arithmetic is unaffected). -/
set_option allowUnsafeReducibility true in
attribute [semireducible] Rat.add Rat.mul Rat.sub Rat.inv Rat.neg Rat.div

/-- Models the C fabs function on our rational stand-in for double. -/
def fabs (x : ℚ) : ℚ := if x < 0 then -x else x

/-- A 4-vector of plane coefficients (normal nx,ny,nz and offset d), the
shallow embedding of Eigen::Vector4d / g2o::Plane3D::coeffs(). The planes
handled by the mapper always carry a unit normal (g2o::Plane3D normalizes
on construction), so the re-normalization g2o performs on assignment is
the identity and is not modelled. -/
structure Vec4 where
  a : ℚ
  b : ℚ
  c : ℚ
  d : ℚ
deriving DecidableEq, Repr

instance : Inhabited Vec4 := ⟨⟨0, 0, 0, 0⟩⟩

/-- Dot product of the normal (first three) components of two coefficient
vectors, as in coeffs().head(3).dot(...). -/
def dot3 (p q : Vec4) : ℚ := p.a * q.a + p.b * q.b + p.c * q.c

/-- The s_graphs::PlaneData message fields used by the utilities. -/
structure PlaneData where
  nx : ℚ
  ny : ℚ
  nz : ℚ
  d : ℚ
deriving DecidableEq, Repr

/-- A 3D point (the x,y,z of a pcl point; the homogeneous fourth component
of getVector4fMap is 1 on both sides of every difference taken by the code
and cancels, so it is not carried). -/
structure Pt3 where
  x : ℚ
  y : ℚ
  z : ℚ
deriving DecidableEq, Repr

/-- Squared Euclidean distance between two points, the value of
(p.getVector4fMap() - q.getVector4fMap()).squaredNorm(). -/
def sqdist (p q : Pt3) : ℚ :=
  (p.x - q.x) * (p.x - q.x) + (p.y - q.y) * (p.y - q.y) + (p.z - q.z) * (p.z - q.z)

namespace PlaneUtils

/-- PlaneUtils::width_between_planes(Eigen::Vector4d, Eigen::Vector4d)
from plane_utils.hpp. The local Eigen::Vector3d vec is declared without an
initializer and is assigned only inside the two strict-inequality
branches; when fabs(v1(3)) = fabs(v2(3)) neither branch runs and the
function reads vec uninitialized. The uninitialized read is modelled by
returning none. -/
def width_between_planes (v1 v2 : Vec4) : Option ℚ :=
  if fabs v1.d > fabs v2.d then
    some (fabs ((fabs v1.d * v1.a - fabs v2.d * v2.a) + (fabs v1.d * v1.b - fabs v2.d * v2.b)))
  else if fabs v2.d > fabs v1.d then
    some (fabs ((fabs v2.d * v2.a - fabs v1.d * v1.a) + (fabs v2.d * v2.b - fabs v1.d * v1.b)))
  else
    none

/-- PlaneUtils::width_between_planes(PlaneData, PlaneData) from
plane_utils.hpp: identical logic on the message type, with the same
uninitialized vec when the offset magnitudes are equal. -/
def width_between_planes_pd (p1 p2 : PlaneData) : Option ℚ :=
  if fabs p1.d > fabs p2.d then
    some (fabs ((fabs p1.d * p1.nx - fabs p2.d * p2.nx) + (fabs p1.d * p1.ny - fabs p2.d * p2.ny)))
  else if fabs p2.d > fabs p1.d then
    some (fabs ((fabs p2.d * p2.nx - fabs p1.d * p1.nx) + (fabs p2.d * p2.ny - fabs p1.d * p1.ny)))
  else
    none

/-- PlaneUtils::correct_plane_d(int, PlaneData) from plane_utils.hpp:
negates all four coefficients when d > 0 (the plane_type argument is
unused by the source). -/
def correct_plane_d (_plane_type : ℤ) (p : PlaneData) : PlaneData :=
  if p.d > 0 then ⟨-p.nx, -p.ny, -p.nz, -p.d⟩ else p

/-- PlaneUtils::correct_plane_d(int, Eigen::Vector4d, double, double)
from plane_utils.hpp: same sign flip on raw coefficients (px, py unused
by the source body). -/
def correct_plane_d_vec (_plane_type : ℤ) (p : Vec4) (_px _py : ℚ) : Vec4 :=
  if p.d > 0 then ⟨-p.a, -p.b, -p.c, -p.d⟩ else p

/-- Inner state walk of PlaneUtils::check_point_neighbours: for each point
of cloud_1 in order, the count grows by one when some point of cloud_2 is
within squared distance 0.5 (the inner loop breaks at the first such
point); the function returns true, breaking out, as soon as the count
exceeds 100. -/
def check_point_neighbours_go (cloud_2 : List Pt3) : List Pt3 → ℕ → Bool
  | [], _ => false
  | p :: rest, cnt =>
    let cnt2 := if cloud_2.any (fun q => sqdist p q < 1/2) then cnt + 1 else cnt
    if cnt2 > 100 then true else check_point_neighbours_go cloud_2 rest cnt2

/-- PlaneUtils::check_point_neighbours(cloud_1, cloud_2) from
plane_utils.hpp, with min_dist = 0.5 compared against the squared norm. -/
def check_point_neighbours (cloud_1 cloud_2 : List Pt3) : Bool :=
  check_point_neighbours_go cloud_2 cloud_1 0

end PlaneUtils

namespace Nodelet

/-- width_between_planes(Eigen::Vector4d, Eigen::Vector4d) of the
s_graphs nodelet: the width is the absolute offset difference, picked by
the larger-magnitude offset; size stays at its initializer 0 when the
offset magnitudes are equal. -/
def width_between_planes (v1 v2 : Vec4) : ℚ :=
  if fabs v1.d > fabs v2.d then fabs (v1.d - v2.d)
  else if fabs v2.d > fabs v1.d then fabs (v2.d - v1.d)
  else 0

/-- correct_plane_d(int, g2o::Plane3D, g2o::Plane3D) of the s_graphs
nodelet: for an X (resp. Y) vertical plane pair it negates only the
offset of each plane whose x (resp. y) normal coefficient is negative,
leaving the normal untouched. Plane classes: 0 = X_VERT, 1 = Y_VERT,
2 = HORT. -/
def correct_plane_d (plane_type : ℤ) (p1 p2 : Vec4) : Vec4 × Vec4 :=
  let q1 :=
    if plane_type = 0 then (if p1.a < 0 then { p1 with d := -p1.d } else p1)
    else if plane_type = 1 then (if p1.b < 0 then { p1 with d := -p1.d } else p1)
    else p1
  let q2 :=
    if plane_type = 0 then (if p2.a < 0 then { p2 with d := -p2.d } else p2)
    else if plane_type = 1 then (if p2.b < 0 then { p2 with d := -p2.d } else p2)
    else p2
  (q1, q2)

end Nodelet

namespace Nodelet

/-- The plane_data_list entries fed to the corridor/room sorting code:
the map-frame plane, the body-frame plane, the plane length from
plane_length(cloud), and the landmark id from factor_planes. Fields the
gating never reads (keyframe node, centroid, cluster center) are
omitted. -/
structure plane_data_list where
  plane : Vec4
  plane_local : Vec4
  plane_length : ℚ
  plane_id : ℤ
deriving DecidableEq, Repr

instance : Inhabited plane_data_list := ⟨⟨default, default, 0, 0⟩⟩

/-- The structure_data_list record produced for each qualifying candidate
pair (avg_point_diff is never set on this path and is omitted). -/
structure structure_data_list where
  plane1 : plane_data_list
  plane2 : plane_data_list
  width : ℚ
  length_diff : ℚ
deriving DecidableEq, Repr

/-- The corridor gating parameters read from the parameter server
(defaults 1.5, 2.5, 0.3). -/
structure CorridorParams where
  corridor_min_width : ℚ
  corridor_max_width : ℚ
  corridor_plane_length_diff_threshold : ℚ
deriving DecidableEq, Repr

/-- sort_corridors(plane_type, corridor_candidates) of the s_graphs
nodelet: for every index pair i < j it first rewrites both candidates in
place through correct_plane_d (map-frame and body-frame planes), then
emits the pair when the normals oppose (dot < 0), the width between the
corrected planes lies strictly inside (min_width, max_width), and the
plane lengths differ by less than the threshold. -/
def sort_corridors (pr : CorridorParams) (plane_type : ℤ)
    (corridor_candidates : List plane_data_list) : List structure_data_list :=
  let n := corridor_candidates.length
  let step := fun (st : Array plane_data_list × List structure_data_list) (i j : ℕ) =>
    let arr := st.1
    let ci := arr.getD i default
    let cj := arr.getD j default
    let pq := correct_plane_d plane_type ci.plane cj.plane
    let pql := correct_plane_d plane_type ci.plane_local cj.plane_local
    let ci2 := { ci with plane := pq.1, plane_local := pql.1 }
    let cj2 := { cj with plane := pq.2, plane_local := pql.2 }
    let arr2 := (arr.setD i ci2).setD j cj2
    let corr_width := width_between_planes ci2.plane cj2.plane
    let diff_plane_length := fabs (ci2.plane_length - cj2.plane_length)
    if dot3 ci2.plane cj2.plane < 0 ∧
        (corr_width < pr.corridor_max_width ∧ corr_width > pr.corridor_min_width) ∧
        diff_plane_length < pr.corridor_plane_length_diff_threshold then
      (arr2, st.2 ++ [⟨ci2, cj2, corr_width, diff_plane_length⟩])
    else
      (arr2, st.2)
  let out := (List.range n).foldl
    (fun st i => ((List.range n).drop (i + 1)).foldl (fun st j => step st i j) st)
    (corridor_candidates.toArray, [])
  out.2

/-- Width difference |width_x - width_y| of an (X-pair, Y-pair)
combination considered by refine_rooms. -/
def room_width_diff (c : structure_data_list × structure_data_list) : ℚ :=
  fabs (c.1.width - c.2.width)

/-- The (X-pair, Y-pair) combinations in the traversal order of the two
nested loops of refine_rooms (X outer, Y inner). -/
def room_combos (x_room_vec y_room_vec : List structure_data_list) :
    List (structure_data_list × structure_data_list) :=
  x_room_vec.flatMap (fun a => y_room_vec.map (fun b => (a, b)))

/-- refine_rooms(x_room_vec, y_room_vec) of the s_graphs nodelet:
min_width_diff starts at 2.5 and is strictly lowered across all
combinations, remembering the pair that lowered it; the empty result
(modelled as none) is returned when the final minimum is still >= 2.5.
The selected x_room and y_room two-element vectors are modelled as the
selected pair of structure_data_list records. -/
def refine_rooms (x_room_vec y_room_vec : List structure_data_list) :
    Option (structure_data_list × structure_data_list) :=
  let r := (room_combos x_room_vec y_room_vec).foldl
    (fun st c => if room_width_diff c < st.1 then (room_width_diff c, some c) else st)
    ((5 : ℚ)/2, none)
  if (5 : ℚ)/2 ≤ r.1 then none else r.2

/-- Minimum of two rationals, written out with the comparison so every
use reduces in the kernel. -/
def qmin (a b : ℚ) : ℚ := if a ≤ b then a else b

/-- Running minimum of the width differences over a combination list,
seeded with the 2.5 starting bound. -/
def min_width_diff_of (m0 : ℚ) (l : List (structure_data_list × structure_data_list)) : ℚ :=
  l.foldl (fun acc c => qmin acc (room_width_diff c)) m0

/-- Modelled from the spec wording of the room square-ness refinement:
the selected combination is the first one, in traversal order, attaining
the minimum width difference, and the result is empty unless that
minimum is below the 2.5 starting bound. -/
def refine_rooms_spec (x_room_vec y_room_vec : List structure_data_list) :
    Option (structure_data_list × structure_data_list) :=
  let combos := room_combos x_room_vec y_room_vec
  let m := min_width_diff_of ((5 : ℚ)/2) combos
  if m < (5 : ℚ)/2 then combos.find? (fun c => room_width_diff c = m) else none

end Nodelet

namespace PlaneMapper

/-- A rigid-body (affine) keyframe pose: rotation entries and translation,
applied to homogeneous points whose fourth component is 1. Shallow
embedding of the Eigen::Matrix4f keyframe->estimate().matrix(). -/
structure Iso3 where
  r00 : ℚ
  r01 : ℚ
  r02 : ℚ
  r10 : ℚ
  r11 : ℚ
  r12 : ℚ
  r20 : ℚ
  r21 : ℚ
  r22 : ℚ
  t0 : ℚ
  t1 : ℚ
  t2 : ℚ
deriving DecidableEq, Repr

/-- Application of a pose to a point, pose * getVector4fMap(). -/
def Iso3.apply (m : Iso3) (p : Pt3) : Pt3 :=
  ⟨m.r00 * p.x + m.r01 * p.y + m.r02 * p.z + m.t0,
   m.r10 * p.x + m.r11 * p.y + m.r12 * p.z + m.t1,
   m.r20 * p.x + m.r21 * p.y + m.r22 * p.z + m.t2⟩

/-- The identity pose. -/
def Iso3.id : Iso3 := ⟨1, 0, 0, 0, 1, 0, 0, 0, 1, 0, 0, 0⟩

/-- The overlap-veto tail of PlaneMapper::associate_plane for a vertical
class (plane_mapper.cpp lines 282-296 for X, symmetric for Y): once the
Mahalanobis minimization has picked matched_first (the matched landmark
id), the match is dropped (result -1, a new landmark will be created)
exactly when the minimum distance is below plane_dist_threshold, the
matched landmark accumulated map cloud is non-empty, and
check_point_neighbours between the map cloud and the detection cloud
transformed by the current keyframe pose fails. There is no else branch
resetting the id when the minimum is above the threshold. -/
def associate_plane_vert_tail (plane_dist_threshold vert_min_maha_dist : ℚ)
    (matched_first : ℤ) (cloud_seg_map : List Pt3) (keyframe_pose : Iso3)
    (cloud_seg_body : List Pt3) : ℤ :=
  if vert_min_maha_dist < plane_dist_threshold ∧ cloud_seg_map ≠ [] then
    let cloud_seg_detected := cloud_seg_body.map keyframe_pose.apply
    if PlaneUtils.check_point_neighbours cloud_seg_map cloud_seg_detected then
      matched_first
    else
      -1
  else
    matched_first

/-- Modelled from the spec wording of the overlap check in claim C3: at
least 100 points of the landmark map cloud have some point of the
transformed detection within a squared-distance gate of 0.5 * 0.5. -/
def claim_neighbour_check (cloud_seg_map cloud_seg_detected : List Pt3) : Bool :=
  100 ≤ cloud_seg_map.countP (fun p => cloud_seg_detected.any (fun q => sqdist p q < 1/4))

/-- Count-based reading of the code overlap check: the number of map
cloud points having some detected point within squared distance 0.5. -/
def neighbour_count (cloud_seg_map cloud_seg_detected : List Pt3) : ℕ :=
  cloud_seg_map.countP (fun p => cloud_seg_detected.any (fun q => sqdist p q < 1/2))

/-- The plane-type classification of PlaneMapper::add_planes_to_graph:
dominant absolute normal coefficient picks X_VERT (0), Y_VERT (1) or
HORT (2); with no strict dominance plane_type keeps its initializer -1. -/
def add_planes_to_graph_type (det_plane_map_frame : Vec4) : ℤ :=
  if fabs det_plane_map_frame.a > fabs det_plane_map_frame.b ∧
      fabs det_plane_map_frame.a > fabs det_plane_map_frame.c then 0
  else if fabs det_plane_map_frame.b > fabs det_plane_map_frame.a ∧
      fabs det_plane_map_frame.b > fabs det_plane_map_frame.c then 1
  else if fabs det_plane_map_frame.c > fabs det_plane_map_frame.a ∧
      fabs det_plane_map_frame.c > fabs det_plane_map_frame.b then 2
  else -1

/-- The observable graph and collection effects of one
PlaneMapper::factor_planes call. edge_target records which plane vertex
the pose-to-plane edge was attached to; none models the uninitialized
plane_node local. -/
structure FactorPlanesEffects where
  landmark_appended : Bool
  plane_vertex_added : Bool
  edge_added : Bool
  edge_target : Option ℤ
deriving DecidableEq, Repr

/-- Control-flow skeleton of PlaneMapper::factor_planes: the switch on
plane_type either creates a landmark plus plane vertex (collection empty
or association returned -1), reuses the matched vertex, or — in the
default case — only logs; after the switch the function unconditionally
adds the pose-to-plane edge using the plane_node local, which the
default case never initialized. new_vertex_id is the vertex the graph
would assign on creation; matched_vertex_id the matched landmark vertex;
matched is the tested disjunction collection-empty-or-association-minus-1
of the corresponding case. -/
def factor_planes_effects (plane_type : ℤ) (matched : Bool)
    (new_vertex_id matched_vertex_id : ℤ) : FactorPlanesEffects :=
  let node : Option ℤ :=
    if plane_type = 0 ∨ plane_type = 1 ∨ plane_type = 2 then
      (if matched then some matched_vertex_id else some new_vertex_id)
    else none
  { landmark_appended := (plane_type = 0 ∨ plane_type = 1 ∨ plane_type = 2) ∧ ¬matched
    plane_vertex_added := (plane_type = 0 ∨ plane_type = 1 ∨ plane_type = 2) ∧ ¬matched
    edge_added := true
    edge_target := node }

end PlaneMapper

namespace Nodelet

/-- A committed keyframe as seen by the auxiliary queue flushes: its
timestamp and whether its auxiliary datum (utm_coord for GPS,
acceleration for IMU) is already set. -/
structure AuxKeyframe where
  stamp : ℚ
  has_data : Bool
deriving DecidableEq, Repr

instance : Inhabited AuxKeyframe := ⟨⟨0, false⟩⟩

/-- The closest-measurement inner loop of flush_gps_queue /
flush_imu_queue: starting from the cursor it walks the remaining queue
items, breaking as soon as the current best is strictly closer in time
to the keyframe than the next item, otherwise advancing the best. Items
are (index, stamp) pairs. -/
def closest_scan (kf_stamp : ℚ) (best : ℕ × ℚ) : List (ℕ × ℚ) → ℕ × ℚ
  | [] => best
  | g :: rest =>
    if fabs (best.2 - kf_stamp) < fabs (g.2 - kf_stamp) then best
    else closest_scan kf_stamp g rest

/-- The keyframe loop shared by flush_gps_queue and flush_imu_queue:
break once a keyframe is later than the newest queued stamp; skip
keyframes earlier than the cursor stamp or already carrying the datum;
otherwise move the cursor to the closest queue item and, when it is
within 0.2 s, record the (queue index, keyframe stamp) match for which
the prior factor is added. -/
def flush_scan (q : List ℚ) (q_back : ℚ) :
    ℕ → List AuxKeyframe → List (ℕ × ℚ) → List (ℕ × ℚ)
  | _, [], acc => acc
  | c, kf :: rest, acc =>
    if kf.stamp > q_back then acc
    else if kf.stamp < q.getD c 0 ∨ kf.has_data then flush_scan q q_back c rest acc
    else
      let cl := closest_scan kf.stamp (c, q.getD c 0) (List.enumFrom c (q.drop c))
      if 1/5 < fabs (q.getD cl.1 0 - kf.stamp) then flush_scan q q_back cl.1 rest acc
      else flush_scan q q_back cl.1 rest (acc ++ [(cl.1, kf.stamp)])

/-- The queue erasure at the end of the flush: erase(begin,
upper_bound(latest keyframe stamp)) on the time-ordered queue, i.e. drop
the leading items stamped at or before the latest committed keyframe. -/
def erase_up_to (last_stamp : ℚ) (q : List ℚ) : List ℚ :=
  q.dropWhile (fun s => decide (s ≤ last_stamp))

/-- flush_gps_queue of the s_graphs nodelet, over the committed keyframe
list and the queued GPS stamps: returns the did-work flag, the list of
(queue index, keyframe stamp) matches for which an xy/xyz prior edge was
added, and the remaining queue. The UTM conversion and edge parameters
carry no timing information and are not modelled. -/
def flush_gps_queue (keyframes : List AuxKeyframe) (gps_queue : List ℚ) :
    Bool × List (ℕ × ℚ) × List ℚ :=
  if keyframes.isEmpty ∨ gps_queue.isEmpty then (false, [], gps_queue)
  else
    let factors := flush_scan gps_queue (gps_queue.getLastD 0) 0 keyframes []
    let q2 := erase_up_to (keyframes.getLastD default).stamp gps_queue
    (!factors.isEmpty, factors, q2)

/-- flush_imu_queue of the s_graphs nodelet: identical queue walk, with
the extra early return when base_frame_id is empty. The tf transform
exception path and the orientation/acceleration enable flags gate which
prior edges are built from a match but not the queue discipline, and are
not modelled. -/
def flush_imu_queue (base_frame_empty : Bool) (keyframes : List AuxKeyframe)
    (imu_queue : List ℚ) : Bool × List (ℕ × ℚ) × List ℚ :=
  if keyframes.isEmpty ∨ imu_queue.isEmpty ∨ base_frame_empty then (false, [], imu_queue)
  else
    let factors := flush_scan imu_queue (imu_queue.getLastD 0) 0 keyframes []
    let q2 := erase_up_to (keyframes.getLastD default).stamp imu_queue
    (!factors.isEmpty, factors, q2)

end Nodelet

namespace Nodelet

/-- A symmetric 3x3 matrix by its lower triangle, as read by Eigen::LLT
(a = m(0,0), b = m(1,0), c = m(1,1), d = m(2,0), e = m(2,1),
f = m(2,2)). -/
structure Mat3 where
  a : ℚ
  b : ℚ
  c : ℚ
  d : ℚ
  e : ℚ
  f : ℚ
deriving DecidableEq, Repr

/-- The 3x3 identity matrix, Eigen::Matrix3d::Identity(). -/
def mat3_identity : Mat3 := ⟨1, 0, 1, 0, 0, 1⟩

/-- Eigen::LLT reporting NumericalIssue on the recovered marginal block:
in exact arithmetic the Cholesky factorization of a symmetric matrix
succeeds exactly when the matrix is positive definite, characterized by
the three leading principal minors being positive. -/
def llt_failed (m : Mat3) : Bool :=
  ¬(0 < m.a ∧ 0 < m.a * m.c - m.b * m.b ∧
    0 < m.a * (m.c * m.f - m.e * m.e) - m.b * (m.b * m.f - m.e * m.d)
      + m.d * (m.b * m.e - m.c * m.d))

/-- One plane landmark as touched by compute_plane_cov: its Hessian index
and stored covariance. -/
structure PlaneCovEntry where
  hessian_index : ℕ
  covariance : Mat3
deriving DecidableEq, Repr

/-- The per-collection update loop of compute_plane_cov: each plane gets
the recovered marginal block at its Hessian index, replaced by the
identity when the LLT check reports a numerical issue. -/
def update_plane_covs (spinv : ℕ → Mat3) (planes : List PlaneCovEntry) :
    List PlaneCovEntry :=
  planes.map fun p =>
    let block := spinv p.hessian_index
    { p with covariance := if llt_failed block then mat3_identity else block }

/-- compute_plane_cov of the s_graphs nodelet: nothing happens when no
plane pairs were collected (all three collections empty) or when
compute_landmark_marginals fails; otherwise every collection is updated
with the identity fallback. The g2o marginals solver is external; its
success flag and the recovered blocks are inputs. -/
def compute_plane_cov (marginals_ok : Bool) (spinv : ℕ → Mat3)
    (x_vert_planes y_vert_planes hort_planes : List PlaneCovEntry) :
    List PlaneCovEntry × List PlaneCovEntry × List PlaneCovEntry :=
  if x_vert_planes.length + y_vert_planes.length + hort_planes.length = 0 then
    (x_vert_planes, y_vert_planes, hort_planes)
  else if marginals_ok then
    (update_plane_covs spinv x_vert_planes,
     update_plane_covs spinv y_vert_planes,
     update_plane_covs spinv hort_planes)
  else
    (x_vert_planes, y_vert_planes, hort_planes)

/-- The inputs of one optimization timer tick: the did-work flags
returned by the five queue flushes, the iteration count returned by the
external g2o optimize call, and the values the tick would publish when
it runs to completion (computed from the newest keyframe). -/
structure TickInputs where
  keyframe_updated : Bool
  floor_updated : Bool
  gps_updated : Bool
  imu_updated : Bool
  clouds_seg_updated : Bool
  optimize_result : ℤ
  new_trans_odom2map : ℚ
  new_keyframes_snapshot : ℕ
deriving DecidableEq, Repr

/-- The shared state the tick publishes: the odom-to-map transform, the
keyframe snapshot handle swapped for the map publisher, and the
graph_updated flag. -/
structure TickSharedState where
  trans_odom2map : ℚ
  keyframes_snapshot : ℕ
  graph_updated : Bool
deriving DecidableEq, Repr

/-- Which stages of the tick ran. -/
structure TickTrace where
  ran_loop_detection : Bool
  merged_new_keyframes : Bool
  ran_optimize : Bool
  ran_compute_plane_cov : Bool
  published_odom2map : Bool
deriving DecidableEq, Repr

/-- optimization_timer_callback of the s_graphs nodelet: when the
keyframe flush and all four auxiliary flushes report no change the tick
returns at once, touching nothing; otherwise it runs loop detection,
merges the staging keyframes, optimizes, recomputes the plane
covariances only when optimize returned more than 0 iterations, and
publishes the new transform and snapshot. -/
def optimization_timer_callback (inp : TickInputs) (s : TickSharedState) :
    TickSharedState × TickTrace :=
  if !inp.keyframe_updated && !inp.floor_updated && !inp.gps_updated &&
      !inp.imu_updated && !inp.clouds_seg_updated then
    (s, ⟨false, false, false, false, false⟩)
  else
    ({ trans_odom2map := inp.new_trans_odom2map,
       keyframes_snapshot := inp.new_keyframes_snapshot,
       graph_updated := true },
     ⟨true, true, true, decide (0 < inp.optimize_result), true⟩)

end Nodelet

namespace IdInvariant

/-- Modelled from the spec: the GraphSLAM wrapper implementation
(graph_slam.cpp) is not under src/; following section 4.1, vertex ids are
the monotonically increasing count of vertices added, and in this
single-robot model every vertex is local, so num_vertices and
num_vertices_local both count the stored vertex ids. -/
structure GraphModel where
  vertex_ids : List ℕ
deriving DecidableEq, Repr

/-- Modelled from the spec: GraphSLAM::num_vertices, the number of
vertices in the graph. -/
def num_vertices (g : GraphModel) : ℕ := g.vertex_ids.length

/-- Modelled from the spec: GraphSLAM::num_vertices_local; all vertices
are local in the single-robot model. -/
def num_vertices_local (g : GraphModel) : ℕ := g.vertex_ids.length

/-- Modelled from the spec: vertex creation (add_se3_node,
add_plane_node, add_corridor_node, add_room_node) assigns the new vertex
the monotonically increasing count of vertices added. -/
def add_node (g : GraphModel) : ℕ × GraphModel :=
  (g.vertex_ids.length, ⟨g.vertex_ids ++ [g.vertex_ids.length]⟩)

/-- A landmark as stored in the plane / corridor / room collections: its
integer id and the id of its owning graph vertex. -/
structure LandmarkModel where
  id : ℕ
  vertex_id : ℕ
deriving DecidableEq, Repr

/-- The mapping state mutated by the timer tick: the graph plus the
three landmark collections relevant to the id invariant. -/
structure MappingState where
  graph : GraphModel
  planes : List LandmarkModel
  corridors : List LandmarkModel
  rooms : List LandmarkModel
deriving DecidableEq, Repr

/-- The creations interleaved on the graph: committing a keyframe adds a
pose vertex and no landmark; each factoring either matches an existing
landmark (no vertex, no landmark) or creates one. -/
inductive MapperOp where
  | commit_keyframe
  | factor_plane (matched : Bool)
  | factor_corridor (matched : Bool)
  | factor_room (matched : Bool)
deriving DecidableEq, Repr

/-- PlaneMapper::factor_planes creation path (plane_mapper.cpp:119): the
id is the num_vertices_local snapshot taken immediately before
add_plane_node, and the landmark keeps the created vertex. -/
def factor_plane_step (s : MappingState) (matched : Bool) : MappingState :=
  if matched then s
  else
    let id := num_vertices_local s.graph
    let r := add_node s.graph
    { s with graph := r.2, planes := s.planes ++ [⟨id, r.1⟩] }

/-- factor_corridors creation path (nodelet, num_vertices snapshot then
add_corridor_node). -/
def factor_corridor_step (s : MappingState) (matched : Bool) : MappingState :=
  if matched then s
  else
    let id := num_vertices s.graph
    let r := add_node s.graph
    { s with graph := r.2, corridors := s.corridors ++ [⟨id, r.1⟩] }

/-- factor_rooms creation path (nodelet, num_vertices snapshot then
add_room_node). -/
def factor_room_step (s : MappingState) (matched : Bool) : MappingState :=
  if matched then s
  else
    let id := num_vertices s.graph
    let r := add_node s.graph
    { s with rooms := s.rooms ++ [⟨id, r.1⟩], graph := r.2 }

/-- flush_keyframe_queue committing one keyframe: adds its pose vertex. -/
def commit_keyframe_step (s : MappingState) : MappingState :=
  { s with graph := (add_node s.graph).2 }

/-- One mapper operation applied to the state. -/
def apply_op (s : MappingState) : MapperOp → MappingState
  | .commit_keyframe => commit_keyframe_step s
  | .factor_plane matched => factor_plane_step s matched
  | .factor_corridor matched => factor_corridor_step s matched
  | .factor_room matched => factor_room_step s matched

/-- The empty initial state. -/
def init_state : MappingState := ⟨⟨[]⟩, [], [], []⟩

/-- Running a sequence of mapper operations from the initial state. -/
def run (ops : List MapperOp) : MappingState :=
  ops.foldl apply_op init_state

/-- All landmarks of a state. -/
def all_landmarks (s : MappingState) : List LandmarkModel :=
  s.planes ++ s.corridors ++ s.rooms

end IdInvariant

/-- C1, counterexample. With the map-frame coefficients of the claim,
v1 = (1,0,0,-1.0) and v2 = (1,0,0,1.2), matching lengths 15,
corridor_min_width = 1.5, corridor_max_width = 2.5 (length threshold
0.3): the nodelet correct_plane_d flips only offsets of planes whose
x-coefficient is negative, so both normals stay (1,0,0); the width does
evaluate to 2.2, but the opposing-normal test dot < 0 fails and
sort_corridors emits nothing, contrary to the claim. -/
theorem c1_corridor_gating_counterexample :
    Nodelet.width_between_planes
      (Nodelet.correct_plane_d 0 ⟨1, 0, 0, -1⟩ ⟨1, 0, 0, 6/5⟩).1
      (Nodelet.correct_plane_d 0 ⟨1, 0, 0, -1⟩ ⟨1, 0, 0, 6/5⟩).2 = 11/5 ∧
    Nodelet.sort_corridors ⟨3/2, 5/2, 3/10⟩ 0
      [⟨⟨1, 0, 0, -1⟩, ⟨1, 0, 0, -1⟩, 15, 1⟩,
       ⟨⟨1, 0, 0, 6/5⟩, ⟨1, 0, 0, 6/5⟩, 15, 2⟩] = [] := by
  constructor
  · decide
  · decide

/-- C1, amended: with genuinely opposing normals, v1 = (1,0,0,-1.0) and
v2 = (-1,0,0,-1.2) (which the sign correction rewrites to
(-1,0,0,1.2)), the pair is emitted as the single corridor candidate
with width 2.2 inside [1.5, 2.5]; moving the second offset so the width
becomes 3.0 (v2 = (-1,0,0,-2.0)) rejects the pair. -/
theorem c1_corridor_gating_amended :
    (Nodelet.sort_corridors ⟨3/2, 5/2, 3/10⟩ 0
      [⟨⟨1, 0, 0, -1⟩, ⟨1, 0, 0, -1⟩, 15, 1⟩,
       ⟨⟨-1, 0, 0, -6/5⟩, ⟨-1, 0, 0, -6/5⟩, 15, 2⟩]).map
        (fun s => (s.plane1.plane_id, s.plane2.plane_id, s.width)) = [(1, 2, 11/5)] ∧
    Nodelet.sort_corridors ⟨3/2, 5/2, 3/10⟩ 0
      [⟨⟨1, 0, 0, -1⟩, ⟨1, 0, 0, -1⟩, 15, 1⟩,
       ⟨⟨-1, 0, 0, -2⟩, ⟨-1, 0, 0, -2⟩, 15, 2⟩] = [] := by
  constructor
  · decide
  · decide

/-- C4: on the failing input — a map-frame plane whose normal has no
strictly dominant axis, classified as plane_type -1 — factor_planes
appends no landmark and adds no plane vertex, as the claim says, but it
does not stop at the logged default case: the pose-to-plane edge is
still added after the switch, with the never-initialized plane_node
local (edge_target = none models the uninitialized pointer, undefined
behavior in the C++ source), contradicting the claimed no-edge no-crash
fallback. -/
theorem c4_default_case_adds_edge (matched : Bool) (new_vertex_id matched_vertex_id : ℤ) :
    PlaneMapper.add_planes_to_graph_type ⟨1, 1, 0, -2⟩ = -1 ∧
    PlaneMapper.factor_planes_effects (-1) matched new_vertex_id matched_vertex_id =
      { landmark_appended := false, plane_vertex_added := false,
        edge_added := true, edge_target := none } := by
  refine ⟨by decide, ?_⟩
  simp [PlaneMapper.factor_planes_effects]

/-- C8: a tick in which the keyframe flush and all four auxiliary
flushes report no change returns before loop detection, keyframe
merging, the optimize call and covariance recomputation, and leaves the
published odom-to-map transform and the keyframe snapshot unchanged. -/
theorem c8_noop_tick (inp : Nodelet.TickInputs) (s : Nodelet.TickSharedState)
    (h1 : inp.keyframe_updated = false) (h2 : inp.floor_updated = false)
    (h3 : inp.gps_updated = false) (h4 : inp.imu_updated = false)
    (h5 : inp.clouds_seg_updated = false) :
    Nodelet.optimization_timer_callback inp s = (s, ⟨false, false, false, false, false⟩) := by
  simp [Nodelet.optimization_timer_callback, h1, h2, h3, h4, h5]

/-- C8 witness: a concrete all-quiet tick with nonzero published values
in the shared state, left untouched. -/
theorem c8_noop_tick_witness :
    Nodelet.optimization_timer_callback ⟨false, false, false, false, false, 7, 9, 4⟩ ⟨1, 2, true⟩ =
      (⟨1, 2, true⟩, ⟨false, false, false, false, false⟩) :=
  c8_noop_tick ⟨false, false, false, false, false, 7, 9, 4⟩ ⟨1, 2, true⟩ rfl rfl rfl rfl rfl

/-- C9, counterexample: the nodelet overload is not idempotent. For
X-vertical planes with p1 = (-1,0,0,1) (negative dominant coefficient):
one application flips the offset to -1, a second application flips it
back to 1, so applying the correction twice differs from applying it
once. -/
theorem c9_idempotence_counterexample :
    Nodelet.correct_plane_d 0
      (Nodelet.correct_plane_d 0 ⟨-1, 0, 0, 1⟩ ⟨1, 0, 0, -1⟩).1
      (Nodelet.correct_plane_d 0 ⟨-1, 0, 0, 1⟩ ⟨1, 0, 0, -1⟩).2 ≠
    Nodelet.correct_plane_d 0 ⟨-1, 0, 0, 1⟩ ⟨1, 0, 0, -1⟩ := by
  decide

/-- C9, amended: the sign-normalization idempotence holds for the two
PlaneUtils overloads, which negate all four coefficients when d > 0 (a
second application sees d < 0 or d = 0 and does nothing); the nodelet
overload, negating only the offset while leaving the dominant-axis
coefficient negative, is instead an involution — applying it twice
restores the original pair. -/
theorem c9_idempotence_amended (pt : ℤ) (p : PlaneData) (v : Vec4) (px py : ℚ) (p1 p2 : Vec4) :
    PlaneUtils.correct_plane_d pt (PlaneUtils.correct_plane_d pt p) =
      PlaneUtils.correct_plane_d pt p ∧
    PlaneUtils.correct_plane_d_vec pt (PlaneUtils.correct_plane_d_vec pt v px py) px py =
      PlaneUtils.correct_plane_d_vec pt v px py ∧
    Nodelet.correct_plane_d pt (Nodelet.correct_plane_d pt p1 p2).1
      (Nodelet.correct_plane_d pt p1 p2).2 = (p1, p2) := by
  refine ⟨?_, ?_, ?_⟩
  · unfold PlaneUtils.correct_plane_d
    split_ifs with h1 h2 <;> first | rfl | (exfalso; simp at h2; linarith)
  · unfold PlaneUtils.correct_plane_d_vec
    split_ifs with h1 h2 <;> first | rfl | (exfalso; simp at h2; linarith)
  · cases p1 with
    | mk a1 b1 c1 d1 =>
      cases p2 with
      | mk a2 b2 c2 d2 =>
        unfold Nodelet.correct_plane_d
        split_ifs <;> simp_all

/-- C10: both PlaneUtils width_between_planes overloads leave their
local vec unassigned, and hence the width undefined (modelled by none),
exactly when the two plane offsets agree in magnitude; the width is
well-defined precisely under the precondition
fabs(v1(3)) != fabs(v2(3)). -/
theorem c10_width_uninitialized (v1 v2 : Vec4) (p1 p2 : PlaneData) :
    (PlaneUtils.width_between_planes v1 v2 = none ↔ fabs v1.d = fabs v2.d) ∧
    (PlaneUtils.width_between_planes_pd p1 p2 = none ↔ fabs p1.d = fabs p2.d) := by
  constructor
  · unfold PlaneUtils.width_between_planes
    split_ifs with h1 h2 <;> simp_all <;> linarith
  · unfold PlaneUtils.width_between_planes_pd
    split_ifs with h1 h2 <;> simp_all <;> linarith

/-- C5: covariance recomputation discipline of the tick. On any tick
that reaches the optimize call, compute_plane_cov runs exactly when
optimize returned more than 0 iterations; and whenever the marginals
were recovered, every plane whose recovered block fails the LLT
positive-definiteness check stores the 3x3 identity covariance instead
of the block, in each of the three collections. -/
theorem c5_plane_cov_recompute :
    (∀ (inp : Nodelet.TickInputs) (s : Nodelet.TickSharedState),
      (Nodelet.optimization_timer_callback inp s).2.ran_optimize = true →
        ((Nodelet.optimization_timer_callback inp s).2.ran_compute_plane_cov = true ↔
          0 < inp.optimize_result)) ∧
    (∀ (spinv : ℕ → Nodelet.Mat3) (planes : List Nodelet.PlaneCovEntry)
        (p : Nodelet.PlaneCovEntry),
      p ∈ Nodelet.update_plane_covs spinv planes →
        Nodelet.llt_failed (spinv p.hessian_index) = true →
          p.covariance = Nodelet.mat3_identity) ∧
    (∀ (spinv : ℕ → Nodelet.Mat3)
        (x_vert_planes y_vert_planes hort_planes : List Nodelet.PlaneCovEntry),
      x_vert_planes.length + y_vert_planes.length + hort_planes.length ≠ 0 →
        Nodelet.compute_plane_cov true spinv x_vert_planes y_vert_planes hort_planes =
          (Nodelet.update_plane_covs spinv x_vert_planes,
           Nodelet.update_plane_covs spinv y_vert_planes,
           Nodelet.update_plane_covs spinv hort_planes)) := by
  refine ⟨?_, ?_, ?_⟩
  · intro inp s h
    unfold Nodelet.optimization_timer_callback at *
    split_ifs at h ⊢ with hq
    all_goals simp_all
  · intro spinv planes p hp hfail
    unfold Nodelet.update_plane_covs at hp
    rcases List.mem_map.mp hp with ⟨q, hq, rfl⟩
    simp only at hfail ⊢
    simp [hfail]
  · intro spinv x y h hne
    unfold Nodelet.compute_plane_cov
    rw [if_neg hne, if_pos rfl]

/-- C5 witness: a concrete changed tick with optimize returning 5
iterations recomputes the covariances; a concrete all-zero recovered
block (not positive definite) is replaced by the identity; a concrete
nonempty collection triple is rewritten through update_plane_covs. -/
theorem c5_plane_cov_recompute_witness :
    (Nodelet.optimization_timer_callback ⟨true, false, false, false, false, 5, 3, 2⟩
        ⟨0, 0, false⟩).2.ran_compute_plane_cov = true ∧
    (⟨0, Nodelet.mat3_identity⟩ : Nodelet.PlaneCovEntry).covariance = Nodelet.mat3_identity ∧
    Nodelet.compute_plane_cov true (fun _ => ⟨0, 0, 0, 0, 0, 0⟩)
        [⟨0, ⟨2, 0, 2, 0, 0, 2⟩⟩] [] [] =
      (Nodelet.update_plane_covs (fun _ => ⟨0, 0, 0, 0, 0, 0⟩) [⟨0, ⟨2, 0, 2, 0, 0, 2⟩⟩],
       [], []) := by
  refine ⟨?_, ?_, ?_⟩
  · exact (c5_plane_cov_recompute.1 ⟨true, false, false, false, false, 5, 3, 2⟩
      ⟨0, 0, false⟩ (by decide)).mpr (by norm_num)
  · exact c5_plane_cov_recompute.2.1 (fun _ => ⟨0, 0, 0, 0, 0, 0⟩)
      [⟨0, Nodelet.mat3_identity⟩] ⟨0, Nodelet.mat3_identity⟩ (by decide) (by decide)
  · exact c5_plane_cov_recompute.2.2 (fun _ => ⟨0, 0, 0, 0, 0, 0⟩)
      [⟨0, ⟨2, 0, 2, 0, 0, 2⟩⟩] [] [] (by decide)

namespace Nodelet

/-- Unfolding step of the running width-difference minimum. -/
lemma min_width_diff_of_cons (m0 : ℚ) (c : structure_data_list × structure_data_list)
    (l : List (structure_data_list × structure_data_list)) :
    min_width_diff_of m0 (c :: l) = min_width_diff_of (qmin m0 (room_width_diff c)) l := rfl

/-- The running minimum never exceeds its seed. -/
lemma min_width_diff_of_le (l : List (structure_data_list × structure_data_list)) :
    ∀ m0 : ℚ, min_width_diff_of m0 l ≤ m0 := by
  induction l with
  | nil => intro m0; simp [min_width_diff_of]
  | cons c t ih =>
    intro m0
    rw [min_width_diff_of_cons]
    refine le_trans (ih _) ?_
    unfold qmin
    split_ifs with h
    · exact le_refl _
    · exact le_of_not_le h

/-- The strict-update fold of refine_rooms computes the running minimum
together with the first combination attaining it (the seed selection
survives when no combination goes strictly below the seed). -/
lemma refine_fold_eq (l : List (structure_data_list × structure_data_list)) :
    ∀ (m0 : ℚ) (s0 : Option (structure_data_list × structure_data_list)),
      l.foldl (fun st c => if room_width_diff c < st.1 then (room_width_diff c, some c) else st)
          (m0, s0) =
        (min_width_diff_of m0 l,
         if min_width_diff_of m0 l < m0 then
           l.find? (fun c => room_width_diff c = min_width_diff_of m0 l)
         else s0) := by
  induction l with
  | nil =>
    intro m0 s0
    simp [min_width_diff_of]
  | cons c t ih =>
    intro m0 s0
    rw [List.foldl_cons, min_width_diff_of_cons]
    by_cases h : room_width_diff c < m0
    · rw [if_pos h]
      rw [ih (room_width_diff c) (some c)]
      have hq : qmin m0 (room_width_diff c) = room_width_diff c := by
        unfold qmin; rw [if_neg (not_le.mpr h)]
      rw [hq]
      have hle : min_width_diff_of (room_width_diff c) t ≤ room_width_diff c :=
        min_width_diff_of_le t _
      rcases eq_or_lt_of_le hle with heq | hlt
      · rw [heq]
        rw [if_pos h, List.find?_cons_of_pos _ (by simp), if_neg (lt_irrefl _)]
      · rw [if_pos hlt, if_pos (lt_trans hlt h)]
        rw [List.find?_cons_of_neg _ (by simp; exact ne_of_gt hlt)]
    · rw [if_neg h]
      rw [ih m0 s0]
      have hq : qmin m0 (room_width_diff c) = m0 := by
        unfold qmin; rw [if_pos (le_of_not_lt h)]
      rw [hq]
      by_cases h2 : min_width_diff_of m0 t < m0
      · rw [if_pos h2, if_pos h2]
        rw [List.find?_cons_of_neg _ ?_]
        simp only [decide_eq_true_eq]
        intro hc
        exact h (hc ▸ h2)
      · rw [if_neg h2, if_neg h2]

end Nodelet

/-- C7: refine_rooms agrees, on every pair of candidate lists, with the
specification reading — pick the (X-pair, Y-pair) combination of
minimum |width_x - width_y| in traversal order (first minimum wins on
ties), empty unless the minimum is below the 2.5 starting bound — and
on X-pairs of widths 3.0, 4.0 versus Y-pairs of widths 3.1, 5.0 it
selects the widths (3.0, 3.1). -/
theorem c7_room_refinement :
    (∀ x_room_vec y_room_vec : List Nodelet.structure_data_list,
      Nodelet.refine_rooms x_room_vec y_room_vec =
        Nodelet.refine_rooms_spec x_room_vec y_room_vec) ∧
    (Nodelet.refine_rooms
      [⟨⟨⟨1, 0, 0, -3/2⟩, default, 0, 1⟩, ⟨⟨-1, 0, 0, -3/2⟩, default, 0, 2⟩, 3, 0⟩,
       ⟨⟨⟨1, 0, 0, -2⟩, default, 0, 3⟩, ⟨⟨-1, 0, 0, -2⟩, default, 0, 4⟩, 4, 0⟩]
      [⟨⟨⟨0, 1, 0, -31/20⟩, default, 0, 5⟩, ⟨⟨0, -1, 0, -31/20⟩, default, 0, 6⟩, 31/10, 0⟩,
       ⟨⟨⟨0, 1, 0, -5/2⟩, default, 0, 7⟩, ⟨⟨0, -1, 0, -5/2⟩, default, 0, 8⟩, 5, 0⟩]).map
      (fun c => (c.1.width, c.2.width)) = some (3, 31/10) := by
  constructor
  · intro x_room_vec y_room_vec
    unfold Nodelet.refine_rooms Nodelet.refine_rooms_spec
    rw [Nodelet.refine_fold_eq]
    by_cases h : Nodelet.min_width_diff_of ((5:ℚ)/2)
        (Nodelet.room_combos x_room_vec y_room_vec) < 5/2
    · rw [if_neg (not_le.mpr h), if_pos h]
    · rw [if_pos (le_of_not_lt h), if_neg h]
  · decide

namespace PlaneUtils

/-- The counting walk of check_point_neighbours returns true exactly
when the seed count plus the number of cloud_1 points having a cloud_2
point within squared distance 0.5 exceeds 100 (both break statements of
the source loop preserve this reading while the count stays at most
100). -/
lemma check_point_neighbours_go_count (cloud_2 : List Pt3) :
    ∀ (l : List Pt3) (cnt : ℕ), cnt ≤ 100 →
      check_point_neighbours_go cloud_2 l cnt =
        decide (100 < cnt + l.countP (fun p => cloud_2.any (fun q => sqdist p q < 1/2))) := by
  intro l
  induction l with
  | nil =>
    intro cnt h
    simp only [check_point_neighbours_go, List.countP_nil, Nat.add_zero]
    exact (decide_eq_false (by omega)).symm
  | cons p rest ih =>
    intro cnt h
    rw [check_point_neighbours_go]
    cases hb : cloud_2.any (fun q => sqdist p q < 1/2) with
    | true =>
      simp only [hb, if_true, List.countP_cons, if_pos rfl]
      by_cases h2 : cnt + 1 > 100
      · rw [if_pos h2]
        symm
        rw [decide_eq_true_eq]
        omega
      · rw [if_neg h2, ih (cnt + 1) (by omega)]
        rw [decide_eq_decide]
        omega
    | false =>
      simp only [hb, Bool.false_eq_true, if_false, List.countP_cons]
      have h2 : ¬ cnt > 100 := by omega
      rw [if_neg h2, ih cnt h]
      rw [decide_eq_decide]
      omega

/-- check_point_neighbours succeeds exactly when strictly more than 100
points of cloud_1 have some point of cloud_2 within squared distance
0.5. -/
lemma check_point_neighbours_count (cloud_1 cloud_2 : List Pt3) :
    check_point_neighbours cloud_1 cloud_2 =
      decide (100 < cloud_1.countP (fun p => cloud_2.any (fun q => sqdist p q < 1/2))) := by
  rw [check_point_neighbours, check_point_neighbours_go_count cloud_2 cloud_1 0 (by omega)]
  simp

end PlaneUtils

set_option maxRecDepth 8000 in
/-- C3, counterexample. A landmark map cloud of exactly 100 points each
coinciding with the single transformed detection point passes the
claimed overlap reading (at least 100 points within the squared gate
0.25), yet under the claimed premises (minimum Mahalanobis distance 0.1
below the 0.15 threshold, non-empty map cloud) the code vetoes the
match and returns -1: check_point_neighbours requires strictly more
than 100 neighbouring points, against a squared gate of 0.5. -/
theorem c3_overlap_veto_counterexample :
    PlaneMapper.claim_neighbour_check (List.replicate 100 ⟨0, 0, 0⟩)
        (List.map PlaneMapper.Iso3.id.apply [⟨0, 0, 0⟩]) = true ∧
    (1 : ℚ)/10 < 3/20 ∧ (List.replicate 100 (⟨0, 0, 0⟩ : Pt3)) ≠ [] ∧
    PlaneMapper.associate_plane_vert_tail (3/20) (1/10) 7 (List.replicate 100 ⟨0, 0, 0⟩)
        PlaneMapper.Iso3.id [⟨0, 0, 0⟩] = -1 := by
  refine ⟨by decide, by norm_num, by simp, by decide⟩

/-- C3, amended: when the minimum Mahalanobis distance is below the
distance threshold and the matched vertical landmark map cloud is
non-empty, the match is kept if and only if strictly more than 100
points (at least 101) of the landmark map cloud have some point of the
transformed detection cloud within a squared-distance gate of 0.5 (not
0.5 squared); otherwise the association result is -1 and a new landmark
is created. -/
theorem c3_overlap_veto_amended (plane_dist_threshold vert_min_maha_dist : ℚ)
    (matched_first : ℤ) (cloud_seg_map : List Pt3) (keyframe_pose : PlaneMapper.Iso3)
    (cloud_seg_body : List Pt3)
    (h1 : vert_min_maha_dist < plane_dist_threshold) (h2 : cloud_seg_map ≠ []) :
    PlaneMapper.associate_plane_vert_tail plane_dist_threshold vert_min_maha_dist matched_first
        cloud_seg_map keyframe_pose cloud_seg_body =
      (if 100 < PlaneMapper.neighbour_count cloud_seg_map
          (cloud_seg_body.map keyframe_pose.apply)
       then matched_first else -1) := by
  unfold PlaneMapper.associate_plane_vert_tail
  rw [if_pos ⟨h1, h2⟩]
  show (if PlaneUtils.check_point_neighbours cloud_seg_map
      (List.map keyframe_pose.apply cloud_seg_body) = true then matched_first else -1) = _
  rw [PlaneUtils.check_point_neighbours_count]
  unfold PlaneMapper.neighbour_count
  by_cases hc : 100 < (cloud_seg_map.countP
      (fun p => (cloud_seg_body.map keyframe_pose.apply).any (fun q => sqdist p q < 1/2)))
  · rw [if_pos hc, decide_eq_true hc, if_pos rfl]
  · rw [if_neg hc, decide_eq_false hc]
    simp only [Bool.false_eq_true, if_false]

/-- C3 amended witness: a single-point map cloud coinciding with the
single detection point, minimum distance 0.1 under threshold 0.15; only
one neighbouring point, so the veto fires and the result is -1. -/
theorem c3_overlap_veto_amended_witness :
    (1 : ℚ)/10 < 3/20 ∧ ([⟨0, 0, 0⟩] : List Pt3) ≠ [] ∧
    PlaneMapper.associate_plane_vert_tail (3/20) (1/10) 7 [⟨0, 0, 0⟩]
        PlaneMapper.Iso3.id [⟨0, 0, 0⟩] =
      (if 100 < PlaneMapper.neighbour_count [⟨0, 0, 0⟩]
          (List.map PlaneMapper.Iso3.id.apply [⟨0, 0, 0⟩]) then 7 else -1) :=
  ⟨by norm_num, by simp,
   c3_overlap_veto_amended (3/20) (1/10) 7 [⟨0, 0, 0⟩] PlaneMapper.Iso3.id [⟨0, 0, 0⟩]
     (by norm_num) (by simp)⟩

namespace Nodelet

/-- An element failing the drop predicate survives dropWhile. -/
lemma mem_dropWhile_of_pred_false {α : Type} (p : α → Bool) :
    ∀ (l : List α) (x : α), x ∈ l → p x = false → x ∈ l.dropWhile p := by
  intro l
  induction l with
  | nil => intro x hx _; exact absurd hx (List.not_mem_nil x)
  | cons a t ih =>
    intro x hx hpx
    rw [List.dropWhile_cons]
    by_cases ha : p a = true
    · rw [if_pos ha]
      rcases List.mem_cons.mp hx with rfl | hxt
      · rw [hpx] at ha; exact absurd ha (by simp)
      · exact ih x hxt hpx
    · rw [if_neg ha]
      exact hx

/-- On a time-ordered list, everything surviving the erase-up-to cut is
strictly later than the cut stamp. -/
lemma sorted_dropWhile_gt (c : ℚ) :
    ∀ (l : List ℚ), l.Pairwise (· ≤ ·) →
      ∀ x ∈ l.dropWhile (fun s => decide (s ≤ c)), c < x := by
  intro l
  induction l with
  | nil => intro _ x hx; simp at hx
  | cons a t ih =>
    intro hs x hx
    rw [List.pairwise_cons] at hs
    rw [List.dropWhile_cons] at hx
    by_cases ha : a ≤ c
    · rw [if_pos (by simpa using ha)] at hx
      exact ih hs.2 x hx
    · rw [if_neg (by simpa using ha)] at hx
      rcases List.mem_cons.mp hx with rfl | hxt
      · exact lt_of_not_le ha
      · exact lt_of_lt_of_le (lt_of_not_le ha) (hs.1 x hxt)

/-- Every match the flush scan records beyond its accumulator pairs a
keyframe of the list with a queue item within 0.2 s of it. -/
lemma flush_scan_factors (q : List ℚ) (q_back : ℚ) :
    ∀ (kfs : List AuxKeyframe) (c : ℕ) (acc : List (ℕ × ℚ)) (f : ℕ × ℚ),
      f ∈ flush_scan q q_back c kfs acc →
        f ∈ acc ∨ (fabs (q.getD f.1 0 - f.2) ≤ 1/5 ∧ ∃ kf ∈ kfs, f.2 = kf.stamp) := by
  intro kfs
  induction kfs with
  | nil =>
    intro c acc f hf
    rw [flush_scan] at hf
    exact Or.inl hf
  | cons kf rest ih =>
    intro c acc f hf
    rw [flush_scan] at hf
    by_cases h1 : kf.stamp > q_back
    · rw [if_pos h1] at hf
      exact Or.inl hf
    · rw [if_neg h1] at hf
      by_cases h2 : kf.stamp < q.getD c 0 ∨ kf.has_data
      · rw [if_pos h2] at hf
        rcases ih c acc f hf with h | ⟨hb, kf2, hk, he⟩
        · exact Or.inl h
        · exact Or.inr ⟨hb, kf2, List.mem_cons_of_mem _ hk, he⟩
      · rw [if_neg h2] at hf
        set cl := closest_scan kf.stamp (c, q.getD c 0) (List.enumFrom c (q.drop c)) with hcl
        by_cases h3 : 1/5 < fabs (q.getD cl.1 0 - kf.stamp)
        · rw [if_pos h3] at hf
          rcases ih cl.1 acc f hf with h | ⟨hb, kf2, hk, he⟩
          · exact Or.inl h
          · exact Or.inr ⟨hb, kf2, List.mem_cons_of_mem _ hk, he⟩
        · rw [if_neg h3] at hf
          rcases ih cl.1 (acc ++ [(cl.1, kf.stamp)]) f hf with h | ⟨hb, kf2, hk, he⟩
          · rcases List.mem_append.mp h with h | h
            · exact Or.inl h
            · rcases List.mem_singleton.mp h with rfl
              exact Or.inr ⟨not_lt.mp h3, kf, List.mem_cons_self _ _, rfl⟩
          · exact Or.inr ⟨hb, kf2, List.mem_cons_of_mem _ hk, he⟩

end Nodelet

/-- C6, counterexample. Keyframes at stamps 5 and 10, GPS queue stamps
5 and 10.1 (time-ordered): the measurement at 10.1, later than the
latest committed keyframe, does stay in the queue after the flush — but
a prior factor is added for it nevertheless (the match (1, 10) pairs
queue index 1, stamp 10.1, with the keyframe at 10, within the 0.2 s
window), contradicting the claim that no factor is added for a
measurement stamped after the latest committed keyframe. -/
theorem c6_queue_boundary_counterexample :
    (10 : ℚ) < 101/10 ∧
    Nodelet.flush_gps_queue [⟨5, false⟩, ⟨10, false⟩] [5, 101/10] =
      (true, [(0, 5), (1, 10)], [101/10]) ∧
    ([5, (101 : ℚ)/10].getD 1 0 = 101/10) := by
  refine ⟨by norm_num, by decide, by decide⟩

/-- C6, amended: for both the GPS and the IMU flush over committed
keyframes and a time-ordered queue, (i) every queued measurement
stamped after the latest committed keyframe remains in the queue after
the flush, although a prior factor may still be added for it when it
lies within 0.2 s of a keyframe; (ii) a measurement farther than 0.2 s
from every committed keyframe never receives a factor; and (iii) such a
measurement, when stamped at or before the latest committed keyframe,
is removed from the queue — skipped permanently. -/
theorem c6_queue_boundary_amended (base_frame_empty : Bool)
    (kfs : List Nodelet.AuxKeyframe) (q : List ℚ) (x : ℚ)
    (hsorted : q.Pairwise (· ≤ ·)) (hkfs : kfs ≠ []) :
    ((kfs.getLastD default).stamp < x → x ∈ q →
      x ∈ (Nodelet.flush_gps_queue kfs q).2.2 ∧
      x ∈ (Nodelet.flush_imu_queue base_frame_empty kfs q).2.2) ∧
    ((∀ kf ∈ kfs, 1/5 < fabs (x - kf.stamp)) →
      (∀ f ∈ (Nodelet.flush_gps_queue kfs q).2.1, q.getD f.1 0 ≠ x) ∧
      (∀ f ∈ (Nodelet.flush_imu_queue base_frame_empty kfs q).2.1, q.getD f.1 0 ≠ x)) ∧
    (x ≤ (kfs.getLastD default).stamp →
      x ∉ (Nodelet.flush_gps_queue kfs q).2.2 ∧
      (base_frame_empty = false →
        x ∉ (Nodelet.flush_imu_queue base_frame_empty kfs q).2.2)) := by
  have hkfsE : kfs.isEmpty = false := by
    cases kfs with
    | nil => exact absurd rfl hkfs
    | cons a t => rfl
  refine ⟨?_, ?_, ?_⟩
  · intro hlast hxq
    constructor
    · rw [Nodelet.flush_gps_queue]
      by_cases hg : kfs.isEmpty ∨ q.isEmpty
      · rw [if_pos hg]; exact hxq
      · rw [if_neg hg]
        exact Nodelet.mem_dropWhile_of_pred_false _ q x hxq
          (decide_eq_false (not_le.mpr hlast))
    · rw [Nodelet.flush_imu_queue]
      by_cases hg : kfs.isEmpty ∨ q.isEmpty ∨ base_frame_empty = true
      · rw [if_pos hg]; exact hxq
      · rw [if_neg hg]
        exact Nodelet.mem_dropWhile_of_pred_false _ q x hxq
          (decide_eq_false (not_le.mpr hlast))
  · intro hfar
    constructor
    · intro f hf hqx
      rw [Nodelet.flush_gps_queue] at hf
      by_cases hg : kfs.isEmpty ∨ q.isEmpty
      · rw [if_pos hg] at hf; exact absurd hf (List.not_mem_nil f)
      · rw [if_neg hg] at hf
        rcases Nodelet.flush_scan_factors q (q.getLastD 0) kfs 0 [] f hf with
          h | ⟨hb, kf, hk, he⟩
        · exact absurd h (List.not_mem_nil f)
        · rw [hqx, he] at hb
          exact absurd hb (not_le.mpr (hfar kf hk))
    · intro f hf hqx
      rw [Nodelet.flush_imu_queue] at hf
      by_cases hg : kfs.isEmpty ∨ q.isEmpty ∨ base_frame_empty = true
      · rw [if_pos hg] at hf; exact absurd hf (List.not_mem_nil f)
      · rw [if_neg hg] at hf
        rcases Nodelet.flush_scan_factors q (q.getLastD 0) kfs 0 [] f hf with
          h | ⟨hb, kf, hk, he⟩
        · exact absurd h (List.not_mem_nil f)
        · rw [hqx, he] at hb
          exact absurd hb (not_le.mpr (hfar kf hk))
  · intro hle
    constructor
    · intro hx
      rw [Nodelet.flush_gps_queue] at hx
      by_cases hg : kfs.isEmpty ∨ q.isEmpty
      · rw [if_pos hg] at hx
        rcases hg with hg | hg
        · rw [hkfsE] at hg; exact absurd hg (by simp)
        · rw [List.isEmpty_iff] at hg
          rw [hg] at hx
          exact absurd hx (List.not_mem_nil x)
      · rw [if_neg hg] at hx
        exact absurd hle (not_le.mpr (Nodelet.sorted_dropWhile_gt _ q hsorted x hx))
    · intro hbase hx
      rw [Nodelet.flush_imu_queue] at hx
      by_cases hg : kfs.isEmpty ∨ q.isEmpty ∨ base_frame_empty = true
      · rw [if_pos hg] at hx
        rcases hg with hg | hg | hg
        · rw [hkfsE] at hg; exact absurd hg (by simp)
        · rw [List.isEmpty_iff] at hg
          rw [hg] at hx
          exact absurd hx (List.not_mem_nil x)
        · rw [hbase] at hg; exact absurd hg (by simp)
      · rw [if_neg hg] at hx
        exact absurd hle (not_le.mpr (Nodelet.sorted_dropWhile_gt _ q hsorted x hx))

/-- C6 amended witness: one keyframe at stamp 10, queue stamps 5 and 11
(sorted, nonempty keyframes); the instantiated conclusion holds for the
measurement at stamp 11. -/
theorem c6_queue_boundary_amended_witness :
    (((([⟨10, false⟩] : List Nodelet.AuxKeyframe).getLastD default).stamp < 11 →
      (11 : ℚ) ∈ [5, 11] →
      (11 : ℚ) ∈ (Nodelet.flush_gps_queue [⟨10, false⟩] [5, 11]).2.2 ∧
      (11 : ℚ) ∈ (Nodelet.flush_imu_queue false [⟨10, false⟩] [5, 11]).2.2) ∧
    ((∀ kf ∈ ([⟨10, false⟩] : List Nodelet.AuxKeyframe), 1/5 < fabs (11 - kf.stamp)) →
      (∀ f ∈ (Nodelet.flush_gps_queue [⟨10, false⟩] [5, 11]).2.1,
        ([5, (11 : ℚ)] : List ℚ).getD f.1 0 ≠ 11) ∧
      (∀ f ∈ (Nodelet.flush_imu_queue false [⟨10, false⟩] [5, 11]).2.1,
        ([5, (11 : ℚ)] : List ℚ).getD f.1 0 ≠ 11)) ∧
    ((11 : ℚ) ≤ ((([⟨10, false⟩] : List Nodelet.AuxKeyframe).getLastD default).stamp) →
      (11 : ℚ) ∉ (Nodelet.flush_gps_queue [⟨10, false⟩] [5, 11]).2.2 ∧
      (false = false →
        (11 : ℚ) ∉ (Nodelet.flush_imu_queue false [⟨10, false⟩] [5, 11]).2.2))) :=
  c6_queue_boundary_amended false [⟨10, false⟩] [5, 11] 11 (by decide) (by simp)

namespace IdInvariant

/-- Membership in the combined landmark collections. -/
lemma mem_all_landmarks (s : MappingState) (lm : LandmarkModel) :
    lm ∈ all_landmarks s ↔ lm ∈ s.planes ∨ lm ∈ s.corridors ∨ lm ∈ s.rooms := by
  simp [all_landmarks, List.mem_append, or_assoc]

/-- One mapper operation preserves the id invariant: a newly created
landmark receives as its id the vertex-count snapshot taken immediately
before its vertex is added, which is exactly the id the graph assigns
to that vertex. -/
lemma apply_op_preserves (s : MappingState) (op : MapperOp)
    (h : ∀ lm ∈ all_landmarks s, lm.id = lm.vertex_id) :
    ∀ lm ∈ all_landmarks (apply_op s op), lm.id = lm.vertex_id := by
  intro lm hlm
  cases op with
  | commit_keyframe =>
    exact h lm hlm
  | factor_plane matched =>
    cases matched with
    | true => exact h lm hlm
    | false =>
      simp only [apply_op, factor_plane_step, Bool.false_eq_true, if_false] at hlm
      rw [mem_all_landmarks] at hlm
      rcases hlm with hp | hc | hr
      · rcases List.mem_append.mp hp with hp | hnew
        · exact h lm ((mem_all_landmarks s lm).mpr (Or.inl hp))
        · rw [List.mem_singleton] at hnew; subst hnew; rfl
      · exact h lm ((mem_all_landmarks s lm).mpr (Or.inr (Or.inl hc)))
      · exact h lm ((mem_all_landmarks s lm).mpr (Or.inr (Or.inr hr)))
  | factor_corridor matched =>
    cases matched with
    | true => exact h lm hlm
    | false =>
      simp only [apply_op, factor_corridor_step, Bool.false_eq_true, if_false] at hlm
      rw [mem_all_landmarks] at hlm
      rcases hlm with hp | hc | hr
      · exact h lm ((mem_all_landmarks s lm).mpr (Or.inl hp))
      · rcases List.mem_append.mp hc with hc | hnew
        · exact h lm ((mem_all_landmarks s lm).mpr (Or.inr (Or.inl hc)))
        · rw [List.mem_singleton] at hnew; subst hnew; rfl
      · exact h lm ((mem_all_landmarks s lm).mpr (Or.inr (Or.inr hr)))
  | factor_room matched =>
    cases matched with
    | true => exact h lm hlm
    | false =>
      simp only [apply_op, factor_room_step, Bool.false_eq_true, if_false] at hlm
      rw [mem_all_landmarks] at hlm
      rcases hlm with hp | hc | hr
      · exact h lm ((mem_all_landmarks s lm).mpr (Or.inl hp))
      · exact h lm ((mem_all_landmarks s lm).mpr (Or.inr (Or.inl hc)))
      · rcases List.mem_append.mp hr with hr | hnew
        · exact h lm ((mem_all_landmarks s lm).mpr (Or.inr (Or.inr hr)))
        · rw [List.mem_singleton] at hnew; subst hnew; rfl

/-- The invariant is preserved along any operation sequence. -/
lemma foldl_preserves :
    ∀ (ops : List MapperOp) (s : MappingState),
      (∀ lm ∈ all_landmarks s, lm.id = lm.vertex_id) →
      ∀ lm ∈ all_landmarks (ops.foldl apply_op s), lm.id = lm.vertex_id := by
  intro ops
  induction ops with
  | nil => intro s h; exact h
  | cons op rest ih =>
    intro s h
    rw [List.foldl_cons]
    exact ih (apply_op s op) (apply_op_preserves s op h)

end IdInvariant

/-- C2: after any interleaving of keyframe commits and plane / corridor
/ room factorings, every landmark ever created carries as its id the
vertex-count snapshot taken immediately before its vertex was added —
the id the graph assigned to its owning vertex — so the landmark id is
a direct cross-reference into the optimizer vertex index. -/
theorem c2_landmark_id_invariant (ops : List IdInvariant.MapperOp)
    (lm : IdInvariant.LandmarkModel)
    (h : lm ∈ IdInvariant.all_landmarks (IdInvariant.run ops)) :
    lm.id = lm.vertex_id := by
  refine IdInvariant.foldl_preserves ops IdInvariant.init_state ?_ lm h
  intro lm2 hlm2
  simp [IdInvariant.all_landmarks, IdInvariant.init_state] at hlm2

/-- C2 witness: a keyframe commit (vertex 0) followed by a plane
creation (id 1 = vertex 1), a corridor creation (id 2 = vertex 2) and a
room creation (id 3 = vertex 3); the plane landmark ⟨1, 1⟩ is in the
collections and satisfies the invariant. -/
theorem c2_landmark_id_invariant_witness :
    (⟨1, 1⟩ : IdInvariant.LandmarkModel) ∈ IdInvariant.all_landmarks (IdInvariant.run
      [IdInvariant.MapperOp.commit_keyframe, IdInvariant.MapperOp.factor_plane false,
       IdInvariant.MapperOp.factor_corridor false, IdInvariant.MapperOp.factor_room false]) ∧
    (⟨1, 1⟩ : IdInvariant.LandmarkModel).id = (⟨1, 1⟩ : IdInvariant.LandmarkModel).vertex_id :=
  ⟨by decide, c2_landmark_id_invariant
    [IdInvariant.MapperOp.commit_keyframe, IdInvariant.MapperOp.factor_plane false,
     IdInvariant.MapperOp.factor_corridor false, IdInvariant.MapperOp.factor_room false]
    ⟨1, 1⟩ (by decide)⟩
